import Mathlib

/-!
Verification of the IFRS 16 lease calculator in `app.py`.

The core of the program is two pure functions, `pv_ordinary_annuity` and
`compute_lease`.  They are embedded here over `ℚ` (the source uses
double-precision floats; all the formulas are rational, so exact rational
arithmetic realises the intended real-number semantics and the
floating-point tolerance claims become exact equalities).

The schedule-building `for` loop of `compute_lease` is embedded as the
structurally recursive function `buildRows pmt r k t opening`, where `k` is
the number of periods still to emit and `t` is the current period number;
the Python condition `t == n` for the final iteration corresponds to
`k = 1`.
-/

namespace LeaseApp

/-- Row of the amortisation schedule, mirroring the dict built by the
schedule loop in `compute_lease` (`Period`, `Opening`, `Interest`,
`Payment`, `Principal`, `Closing`). -/
structure Row where
  Period : ℕ
  Opening : ℚ
  Interest : ℚ
  Payment : ℚ
  Principal : ℚ
  Closing : ℚ
deriving Repr, DecidableEq

/-- Input parameters of `compute_lease`, one field per Python argument. -/
structure LeaseParams where
  lease_term : ℕ
  annual_payment : ℚ
  rate : ℚ
  pay_in_advance : Bool
  idc : ℚ
  prepaid : ℚ
  incentives : ℚ
  useful_life : ℕ
deriving Repr, DecidableEq

/-- Result dict of `compute_lease`. -/
structure LeaseResult where
  lease_liability_initial : ℚ
  rou_initial : ℚ
  annual_dep : ℚ
  dep_years : ℕ
  schedule : List Row
deriving Repr, DecidableEq

/-- Embedding of `pv_ordinary_annuity(pmt, r, n)`:
`if r == 0: return pmt * n` and otherwise
`pmt * (1 - (1 + r) ** -n) / r`. -/
def pv_ordinary_annuity (pmt r : ℚ) (n : ℕ) : ℚ :=
  if r = 0 then pmt * n
  else pmt * (1 - (1 + r) ^ (-(n : ℤ))) / r

/-- Embedding of the schedule loop `for t in range(1, n + 1)` of
`compute_lease`.  `k` counts the remaining iterations, `t` is the loop
variable and `opening` the running balance; `k = 1` means `t == n`
(the final period, where the balloon override fires). -/
def buildRows (pmt r : ℚ) : ℕ → ℕ → ℚ → List Row
  | 0, _, _ => []
  | Nat.succ k, t, opening =>
    let interest := opening * r
    let principal := if k = 0 then opening else pmt - interest
    let payment := if k = 0 then interest + principal else pmt
    let closing := opening - principal
    ⟨t, opening, interest, payment, principal, closing⟩ ::
      buildRows pmt r k (t + 1) closing

/-- Embedding of `compute_lease`. -/
def compute_lease (p : LeaseParams) : LeaseResult :=
  let r := p.rate
  let n := p.lease_term
  let pmt := p.annual_payment
  let pv := if p.pay_in_advance then pmt + pv_ordinary_annuity pmt r (n - 1)
            else pv_ordinary_annuity pmt r n
  let lease_liability_initial := pv
  let rou_initial := lease_liability_initial + p.idc + p.prepaid - p.incentives
  let opening := lease_liability_initial
  let rows :=
    if p.pay_in_advance then
      let principal := min pmt opening
      let closing := opening - principal
      ⟨0, opening, 0, pmt, principal, closing⟩ :: buildRows pmt r n 1 closing
    else
      buildRows pmt r n 1 opening
  let dep_years := min n p.useful_life
  let annual_dep := rou_initial / (dep_years : ℚ)
  ⟨lease_liability_initial, rou_initial, annual_dep, dep_years, rows⟩

/-- Documented input domain of the calculator (spec §3, §7): positive
integer term and useful life, non-negative payment, rate and monetary
adjustments. -/
def InDomain (p : LeaseParams) : Prop :=
  1 ≤ p.lease_term ∧ 0 ≤ p.annual_payment ∧ 0 ≤ p.rate ∧
    1 ≤ p.useful_life ∧ 0 ≤ p.idc ∧ 0 ≤ p.prepaid ∧ 0 ≤ p.incentives

instance (p : LeaseParams) : Decidable (InDomain p) := by
  unfold InDomain; infer_instance

/-- Division instrumented to detect Python `ZeroDivisionError`. -/
def checkedDiv (a b : ℚ) : Option ℚ :=
  if b = 0 then none else some (a / b)

/-- Integer power instrumented to detect Python `0 ** negative`. -/
def checkedZpow (b : ℚ) (m : ℤ) : Option ℚ :=
  if b = 0 ∧ m < 0 then none else some (b ^ m)

/-- Error-aware variant of `pv_ordinary_annuity`: every partial Python
operation (the power with negative exponent and the division by `r`) goes
through a checked wrapper. -/
def pv_ordinary_annuity_checked (pmt r : ℚ) (n : ℕ) : Option ℚ :=
  if r = 0 then some (pmt * n)
  else do
    let q ← checkedZpow (1 + r) (-(n : ℤ))
    checkedDiv (pmt * (1 - q)) r

/-- Error-aware variant of `compute_lease`: the present-value call and the
depreciation division go through checked wrappers (the schedule loop
itself contains no partial operation). -/
def compute_lease_checked (p : LeaseParams) : Option LeaseResult := do
  let r := p.rate
  let n := p.lease_term
  let pmt := p.annual_payment
  let pv ←
    if p.pay_in_advance then do
      let a ← pv_ordinary_annuity_checked pmt r (n - 1)
      pure (pmt + a)
    else pv_ordinary_annuity_checked pmt r n
  let lease_liability_initial := pv
  let rou_initial := lease_liability_initial + p.idc + p.prepaid - p.incentives
  let opening := lease_liability_initial
  let rows :=
    if p.pay_in_advance then
      let principal := min pmt opening
      let closing := opening - principal
      ⟨0, opening, 0, pmt, principal, closing⟩ :: buildRows pmt r n 1 closing
    else
      buildRows pmt r n 1 opening
  let dep_years := min n p.useful_life
  let annual_dep ← checkedDiv rou_initial (dep_years : ℚ)
  pure ⟨lease_liability_initial, rou_initial, annual_dep, dep_years, rows⟩

/-! ### Unfolding lemmas -/

/-- Unfolding `buildRows` with no period left. -/
theorem buildRows_zero (pmt r : ℚ) (t : ℕ) (o : ℚ) : buildRows pmt r 0 t o = [] := rfl

/-- Unfolding `buildRows` on its final period (`t = n`, one iteration left):
the balloon override fires, so the payment is `interest + principal` with
`principal` the whole opening balance. -/
theorem buildRows_one (pmt r : ℚ) (t : ℕ) (o : ℚ) :
    buildRows pmt r 1 t o = [⟨t, o, o * r, o * r + o, o, o - o⟩] := rfl

/-- Unfolding `buildRows` on a non-final period (at least two iterations
left): the payment is `pmt` and the principal the interest-adjusted
remainder. -/
theorem buildRows_succ_succ (pmt r : ℚ) (k t : ℕ) (o : ℚ) :
    buildRows pmt r (k + 2) t o =
      ⟨t, o, o * r, pmt, pmt - o * r, o - (pmt - o * r)⟩ ::
        buildRows pmt r (k + 1) (t + 1) (o - (pmt - o * r)) := rfl

/-- Projection of `compute_lease` onto the initial liability. -/
theorem compute_lease_liability (p : LeaseParams) :
    (compute_lease p).lease_liability_initial =
      if p.pay_in_advance then
        p.annual_payment + pv_ordinary_annuity p.annual_payment p.rate (p.lease_term - 1)
      else pv_ordinary_annuity p.annual_payment p.rate p.lease_term := rfl

/-- Projection of `compute_lease` onto the schedule, arrears case. -/
theorem compute_lease_schedule_arrears (p : LeaseParams) (h : p.pay_in_advance = false) :
    (compute_lease p).schedule =
      buildRows p.annual_payment p.rate p.lease_term 1
        (pv_ordinary_annuity p.annual_payment p.rate p.lease_term) := by
  simp [compute_lease, h]

/-- Projection of `compute_lease` onto the schedule, advance case: the
period-0 row (zero interest, principal clamped to the opening balance)
followed by the loop's rows. -/
theorem compute_lease_schedule_advance (p : LeaseParams) (h : p.pay_in_advance = true) :
    (compute_lease p).schedule =
      ⟨0, p.annual_payment + pv_ordinary_annuity p.annual_payment p.rate (p.lease_term - 1),
        0, p.annual_payment,
        min p.annual_payment
          (p.annual_payment + pv_ordinary_annuity p.annual_payment p.rate (p.lease_term - 1)),
        p.annual_payment + pv_ordinary_annuity p.annual_payment p.rate (p.lease_term - 1) -
          min p.annual_payment
            (p.annual_payment +
              pv_ordinary_annuity p.annual_payment p.rate (p.lease_term - 1))⟩ ::
      buildRows p.annual_payment p.rate p.lease_term 1
        (p.annual_payment + pv_ordinary_annuity p.annual_payment p.rate (p.lease_term - 1) -
          min p.annual_payment
            (p.annual_payment +
              pv_ordinary_annuity p.annual_payment p.rate (p.lease_term - 1))) := by
  simp [compute_lease, h]

/-! ### Structural lemmas about the schedule loop -/

/-- `buildRows` emits exactly one row per remaining period. -/
theorem buildRows_length (pmt r : ℚ) (k : ℕ) :
    ∀ (t : ℕ) (o : ℚ), (buildRows pmt r k t o).length = k := by
  induction k with
  | zero => intro t o; rfl
  | succ k ih =>
    intro t o
    rcases k with _ | k
    · rw [buildRows_one]; rfl
    · rw [buildRows_succ_succ, List.length_cons, ih]

/-- Period numbers of `buildRows` are consecutive from the starting
period. -/
theorem buildRows_map_Period (pmt r : ℚ) (k : ℕ) :
    ∀ (t : ℕ) (o : ℚ), (buildRows pmt r k t o).map Row.Period = List.range' t k := by
  induction k with
  | zero => intro t o; rfl
  | succ k ih =>
    intro t o
    rcases k with _ | k
    · rw [buildRows_one]; rfl
    · rw [buildRows_succ_succ, List.map_cons, ih]
      simp [List.range'_succ]

/-- Every row of `buildRows` satisfies the per-row accounting identities:
interest is the rate applied to the opening balance, the payment splits
into interest plus principal, the closing balance is the opening balance
less the principal; and its period number is at least the starting one. -/
theorem buildRows_row_shape (pmt r : ℚ) (k : ℕ) :
    ∀ (t : ℕ) (o : ℚ), ∀ row ∈ buildRows pmt r k t o,
      row.Interest = row.Opening * r ∧ row.Payment = row.Interest + row.Principal ∧
        row.Closing = row.Opening - row.Principal ∧ t ≤ row.Period := by
  induction k with
  | zero => intro t o row h; rw [buildRows_zero] at h; cases h
  | succ k ih =>
    intro t o row h
    rcases k with _ | k
    · rw [buildRows_one, List.mem_singleton] at h
      subst h
      exact ⟨rfl, rfl, rfl, le_refl t⟩
    · rw [buildRows_succ_succ, List.mem_cons] at h
      rcases h with rfl | h
      · exact ⟨rfl, by ring, rfl, le_refl t⟩
      · obtain ⟨h1, h2, h3, h4⟩ := ih (t + 1) _ row h
        exact ⟨h1, h2, h3, le_trans (Nat.le_succ t) h4⟩

/-- The first row of a `buildRows` list, when there is one, opens at the
balance passed in. -/
theorem buildRows_head_opening (pmt r : ℚ) (k t : ℕ) (o : ℚ) :
    ∀ row ∈ (buildRows pmt r k t o).head?, row.Opening = o := by
  intro row h
  rcases k with _ | _ | k
  · rw [buildRows_zero] at h; cases h
  · rw [buildRows_one] at h
    simp only [List.head?_cons, Option.mem_def, Option.some.injEq] at h
    subst h; rfl
  · rw [buildRows_succ_succ] at h
    simp only [List.head?_cons, Option.mem_def, Option.some.injEq] at h
    subst h; rfl

/-- Consecutive rows of `buildRows` are linked: each row opens at the
previous row's closing balance. -/
theorem buildRows_chain (pmt r : ℚ) (k : ℕ) :
    ∀ (t : ℕ) (o : ℚ),
      List.Chain' (fun a b => b.Opening = a.Closing) (buildRows pmt r k t o) := by
  induction k with
  | zero => intro t o; rw [buildRows_zero]; exact List.chain'_nil
  | succ k ih =>
    intro t o
    rcases k with _ | k
    · rw [buildRows_one]; exact List.chain'_singleton _
    · rw [buildRows_succ_succ]
      refine List.chain'_cons'.mpr ⟨?_, ih (t + 1) _⟩
      intro y hy
      exact buildRows_head_opening pmt r (k + 1) (t + 1) _ y hy

/-- Decomposition of a nonempty `buildRows` into its initial rows and its
final row; the final row carries the forced balloon: its principal is the
whole opening balance, its payment is interest plus principal, and its
closing balance is exactly zero. -/
theorem buildRows_last (pmt r : ℚ) (k : ℕ) :
    ∀ (t : ℕ) (o : ℚ), ∃ init last, buildRows pmt r (k + 1) t o = init ++ [last] ∧
      last.Principal = last.Opening ∧ last.Payment = last.Interest + last.Principal ∧
        last.Closing = 0 := by
  induction k with
  | zero =>
    intro t o
    exact ⟨[], ⟨t, o, o * r, o * r + o, o, o - o⟩, by rw [buildRows_one]; rfl,
      rfl, rfl, sub_self o⟩
  | succ k ih =>
    intro t o
    obtain ⟨init, last, heq, h1, h2, h3⟩ := ih (t + 1) (o - (pmt - o * r))
    exact ⟨⟨t, o, o * r, pmt, pmt - o * r, o - (pmt - o * r)⟩ :: init, last,
      by rw [buildRows_succ_succ, heq, List.cons_append], h1, h2, h3⟩

/-! ### Arithmetic lemmas about the present value -/

/-- Closed form of the annuity present value with the negative power
rewritten as an inverse, valid whenever the rate is nonzero. -/
theorem pv_eq_inv_pow (pmt r : ℚ) (n : ℕ) (hr : r ≠ 0) :
    pv_ordinary_annuity pmt r n = pmt * (1 - ((1 + r) ^ n)⁻¹) / r := by
  rw [pv_ordinary_annuity, if_neg hr, zpow_neg, zpow_natCast]

/-- An annuity over zero periods is worth nothing. -/
theorem pv_zero_periods (pmt r : ℚ) : pv_ordinary_annuity pmt r 0 = 0 := by
  by_cases hr : r = 0 <;> simp [pv_ordinary_annuity, hr]

/-- An annuity of zero payments is worth nothing. -/
theorem pv_zero_payment (r : ℚ) (n : ℕ) : pv_ordinary_annuity 0 r n = 0 := by
  by_cases hr : r = 0 <;> simp [pv_ordinary_annuity, hr]

/-- One amortisation step from the value of a `(k+1)`-period annuity lands
on the value of a `k`-period annuity: subtracting the principal part
`pmt - opening * r` of a regular payment from the opening balance. -/
theorem pv_amortisation_step (pmt r : ℚ) (hr : r ≠ 0) (h1 : (1 : ℚ) + r ≠ 0) (k : ℕ) :
    pv_ordinary_annuity pmt r (k + 1) - (pmt - pv_ordinary_annuity pmt r (k + 1) * r) =
      pv_ordinary_annuity pmt r k := by
  rw [pv_eq_inv_pow pmt r (k + 1) hr, pv_eq_inv_pow pmt r k hr]
  have hpow : ((1 : ℚ) + r) ^ k ≠ 0 := pow_ne_zero k h1
  have hpow1 : ((1 : ℚ) + r) ^ (k + 1) ≠ 0 := pow_ne_zero _ h1
  field_simp
  ring

/-- The interest on an annuity's value never reaches a full payment. -/
theorem pv_mul_rate_lt (pmt r : ℚ) (hp : 0 < pmt) (hr : 0 < r) (k : ℕ) :
    pv_ordinary_annuity pmt r k * r < pmt := by
  have h1 : (0 : ℚ) < 1 + r := by linarith
  rw [pv_eq_inv_pow pmt r k (ne_of_gt hr), div_mul_cancel₀ _ (ne_of_gt hr)]
  have hinv : 0 < ((1 + r) ^ k)⁻¹ := inv_pos.mpr (pow_pos h1 k)
  nlinarith

/-- With a positive payment and rate, the annuity value strictly grows with
the number of periods. -/
theorem pv_lt_succ (pmt r : ℚ) (hp : 0 < pmt) (hr : 0 < r) (k : ℕ) :
    pv_ordinary_annuity pmt r k < pv_ordinary_annuity pmt r (k + 1) := by
  have h1 : (1 : ℚ) + r ≠ 0 := by linarith
  have hstep := pv_amortisation_step pmt r (ne_of_gt hr) h1 k
  have hlt := pv_mul_rate_lt pmt r hp hr (k + 1)
  linarith

/-- With a positive payment and rate, an annuity over at least one period
has positive value. -/
theorem pv_pos (pmt r : ℚ) (hp : 0 < pmt) (hr : 0 < r) (k : ℕ) (hk : 0 < k) :
    0 < pv_ordinary_annuity pmt r k := by
  induction k with
  | zero => cases hk
  | succ k ih =>
    rcases Nat.eq_zero_or_pos k with rfl | hk2
    · have h := pv_lt_succ pmt r hp hr 0
      rw [pv_zero_periods] at h
      exact h
    · exact lt_trans (ih hk2) (pv_lt_succ pmt r hp hr k)

/-- The annuity present value is nonnegative over the whole documented
domain. -/
theorem pv_nonneg (pmt r : ℚ) (hp : 0 ≤ pmt) (hr : 0 ≤ r) (n : ℕ) :
    0 ≤ pv_ordinary_annuity pmt r n := by
  rcases eq_or_lt_of_le hp with hp0 | hp0
  · rw [← hp0, pv_zero_payment]
  · rcases eq_or_lt_of_le hr with hr0 | hr0
    · rw [pv_ordinary_annuity, if_pos hr0.symm]
      exact mul_nonneg (le_of_lt hp0) (Nat.cast_nonneg n)
    · rcases Nat.eq_zero_or_pos n with rfl | hn
      · rw [pv_zero_periods]
      · exact le_of_lt (pv_pos pmt r hp0 hr0 n hn)

/-- Openings of the schedule loop started at the `k`-period annuity value
(the arrears initial liability) strictly decrease row over row and stay
positive, given a positive payment and rate. -/
theorem buildRows_openings_strictAnti (pmt r : ℚ) (hp : 0 < pmt) (hr : 0 < r) (k : ℕ) :
    ∀ t : ℕ,
      List.Chain' (fun a b => b.Opening < a.Opening)
        (buildRows pmt r k t (pv_ordinary_annuity pmt r k)) ∧
      ∀ row ∈ buildRows pmt r k t (pv_ordinary_annuity pmt r k), 0 < row.Opening := by
  have h1 : (1 : ℚ) + r ≠ 0 := by linarith
  induction k with
  | zero =>
    intro t
    rw [buildRows_zero]
    exact ⟨List.chain'_nil, fun row h => absurd h (List.not_mem_nil row)⟩
  | succ k ih =>
    intro t
    rcases k with _ | k
    · rw [buildRows_one]
      refine ⟨List.chain'_singleton _, ?_⟩
      intro row h
      rw [List.mem_singleton] at h
      subst h
      exact pv_pos pmt r hp hr 1 one_pos
    · rw [buildRows_succ_succ,
        pv_amortisation_step pmt r (ne_of_gt hr) h1 (k + 1)]
      obtain ⟨hchain, hpos⟩ := ih (t + 1)
      refine ⟨List.chain'_cons'.mpr ⟨?_, hchain⟩, ?_⟩
      · intro y hy
        rw [buildRows_head_opening pmt r (k + 1) (t + 1) _ y hy]
        exact pv_lt_succ pmt r hp hr (k + 1)
      · intro row hrow
        rw [List.mem_cons] at hrow
        rcases hrow with rfl | hrow
        · exact pv_pos pmt r hp hr (k + 1 + 1) (by omega)
        · exact hpos row hrow

/-- Parameters of the default scenario of spec §8: term 4, payment 25000,
rate 5 %, arrears, useful life 4, no costs, prepayments or incentives. -/
def defaultParams : LeaseParams :=
  ⟨4, 25000, 1/20, false, 0, 0, 0, 4⟩

/-- Same scenario with Advance timing (spec §8, advance-timing property). -/
def defaultParamsAdvance : LeaseParams :=
  ⟨4, 25000, 1/20, true, 0, 0, 0, 4⟩

/-- The default scenario lies in the documented input domain. -/
theorem defaultParams_domain : InDomain defaultParams := by
  norm_num [InDomain, defaultParams]

/-- The advance-timing default scenario lies in the documented input
domain. -/
theorem defaultParamsAdvance_domain : InDomain defaultParamsAdvance := by
  norm_num [InDomain, defaultParamsAdvance]

/-- On a nonnegative rate the checked present value detects no error and
agrees with the total embedding. -/
theorem pv_checked_eq (pmt r : ℚ) (hr : 0 ≤ r) (n : ℕ) :
    pv_ordinary_annuity_checked pmt r n = some (pv_ordinary_annuity pmt r n) := by
  by_cases h0 : r = 0
  · simp [pv_ordinary_annuity_checked, pv_ordinary_annuity, h0]
  · have h1 : (1 : ℚ) + r ≠ 0 := by
      have : 0 < r := lt_of_le_of_ne hr (Ne.symm h0)
      linarith
    simp [pv_ordinary_annuity_checked, pv_ordinary_annuity, h0, checkedZpow, checkedDiv, h1]

/-! ### The claims -/

/-- C1: for every `LeaseParameters` in the documented domain, the schedule
ends in a row whose principal reduction is forced to the whole opening
balance and whose payment is forced to interest plus principal, so that
the final row's closing balance is exactly `0` (in particular within the
`1e-6` floating-point tolerance). -/
theorem C1_full_amortisation (p : LeaseParams) (h : InDomain p) :
    ∃ init last, (compute_lease p).schedule = init ++ [last] ∧
      last.Principal = last.Opening ∧ last.Payment = last.Interest + last.Principal ∧
      last.Closing = 0 ∧ |last.Closing| < 1 / 1000000 := by
  have ht : 1 ≤ p.lease_term := h.1
  obtain ⟨m, hm⟩ : ∃ m, p.lease_term = m + 1 := ⟨p.lease_term - 1, by omega⟩
  cases hb : p.pay_in_advance
  · rw [compute_lease_schedule_arrears p hb, hm]
    obtain ⟨init, last, heq, h1, h2, h3⟩ := buildRows_last p.annual_payment p.rate m 1 _
    exact ⟨init, last, heq, h1, h2, h3, by rw [h3]; norm_num⟩
  · rw [compute_lease_schedule_advance p hb, hm]
    obtain ⟨init, last, heq, h1, h2, h3⟩ :=
      buildRows_last p.annual_payment p.rate m 1
        (p.annual_payment + pv_ordinary_annuity p.annual_payment p.rate (m + 1 - 1) -
          min p.annual_payment
            (p.annual_payment + pv_ordinary_annuity p.annual_payment p.rate (m + 1 - 1)))
    exact ⟨_ :: init, last, by rw [heq, ← List.cons_append], h1, h2, h3,
      by rw [h3]; norm_num⟩

/-- C1 witness: the default scenario's schedule ends at exactly zero. -/
theorem C1_full_amortisation_witness :
    InDomain defaultParams ∧
    ∃ init last, (compute_lease defaultParams).schedule = init ++ [last] ∧
      last.Principal = last.Opening ∧ last.Payment = last.Interest + last.Principal ∧
      last.Closing = 0 ∧ |last.Closing| < 1 / 1000000 :=
  ⟨defaultParams_domain, C1_full_amortisation defaultParams defaultParams_domain⟩

/-- C2: the initial liability is the `term`-period annuity value in
arrears, and the first payment plus the `(term − 1)`-period annuity value
in advance. -/
theorem C2_initial_liability (p : LeaseParams) (h : InDomain p) :
    (p.pay_in_advance = false → (compute_lease p).lease_liability_initial =
      pv_ordinary_annuity p.annual_payment p.rate p.lease_term) ∧
    (p.pay_in_advance = true → (compute_lease p).lease_liability_initial =
      p.annual_payment + pv_ordinary_annuity p.annual_payment p.rate (p.lease_term - 1)) := by
  constructor <;> intro hb <;> rw [compute_lease_liability, hb] <;> simp

/-- C2 witness: instantiated at the default scenario. -/
theorem C2_initial_liability_witness :
    InDomain defaultParams ∧
    ((defaultParams.pay_in_advance = false →
      (compute_lease defaultParams).lease_liability_initial =
        pv_ordinary_annuity defaultParams.annual_payment defaultParams.rate
          defaultParams.lease_term) ∧
    (defaultParams.pay_in_advance = true →
      (compute_lease defaultParams).lease_liability_initial =
        defaultParams.annual_payment +
          pv_ordinary_annuity defaultParams.annual_payment defaultParams.rate
            (defaultParams.lease_term - 1))) :=
  ⟨defaultParams_domain, C2_initial_liability defaultParams defaultParams_domain⟩

/-- C3: the present value is `payment × periods` at rate zero and the
ordinary-annuity closed form `payment × (1 − (1+rate)^(−periods)) / rate`
(written with the negative power as an inverse) at a positive rate. -/
theorem C3_present_value_formula (pmt r : ℚ) (n : ℕ) (hp : 0 ≤ pmt) (hr : 0 ≤ r) :
    (r = 0 → pv_ordinary_annuity pmt r n = pmt * n) ∧
    (0 < r → pv_ordinary_annuity pmt r n = pmt * (1 - ((1 + r) ^ n)⁻¹) / r) := by
  constructor
  · intro h0
    rw [pv_ordinary_annuity, if_pos h0]
  · intro h0
    exact pv_eq_inv_pow pmt r n (ne_of_gt h0)

/-- C3 witness: instantiated at the default scenario's payment, rate and
term. -/
theorem C3_present_value_formula_witness :
    (0 : ℚ) ≤ 25000 ∧ (0 : ℚ) ≤ 1 / 20 ∧
    (((1 : ℚ) / 20 = 0 → pv_ordinary_annuity 25000 (1 / 20) 4 = 25000 * (4 : ℕ)) ∧
    ((0 : ℚ) < 1 / 20 → pv_ordinary_annuity 25000 (1 / 20) 4 =
      25000 * (1 - ((1 + 1 / 20) ^ (4 : ℕ))⁻¹) / (1 / 20))) :=
  ⟨by norm_num, by norm_num, C3_present_value_formula 25000 (1 / 20) 4 (by norm_num) (by norm_num)⟩

/-- C4: every schedule row other than the advance period-0 row (the only
row numbered 0) has interest equal to opening times rate, payment equal to
interest plus principal reduction, and closing equal to opening minus
principal reduction; the period-0 row has zero interest; and consecutive
rows are linked, each opening at the previous row's closing balance. -/
theorem C4_row_consistency (p : LeaseParams) (h : InDomain p) :
    (∀ row ∈ (compute_lease p).schedule,
      (row.Period ≠ 0 →
        row.Interest = row.Opening * p.rate ∧
          row.Payment = row.Interest + row.Principal ∧
          row.Closing = row.Opening - row.Principal) ∧
      (row.Period = 0 → row.Interest = 0)) ∧
    List.Chain' (fun a b => b.Opening = a.Closing) (compute_lease p).schedule := by
  cases hb : p.pay_in_advance
  · rw [compute_lease_schedule_arrears p hb]
    constructor
    · intro row hrow
      obtain ⟨h1, h2, h3, h4⟩ :=
        buildRows_row_shape p.annual_payment p.rate p.lease_term 1 _ row hrow
      exact ⟨fun _ => ⟨h1, h2, h3⟩, fun h0 => absurd (h0 ▸ h4) (by omega)⟩
    · exact buildRows_chain _ _ _ _ _
  · rw [compute_lease_schedule_advance p hb]
    constructor
    · intro row hrow
      rw [List.mem_cons] at hrow
      rcases hrow with rfl | hrow
      · exact ⟨fun hne => absurd rfl hne, fun _ => rfl⟩
      · obtain ⟨h1, h2, h3, h4⟩ :=
          buildRows_row_shape p.annual_payment p.rate p.lease_term 1 _ row hrow
        exact ⟨fun _ => ⟨h1, h2, h3⟩, fun h0 => absurd (h0 ▸ h4) (by omega)⟩
    · refine List.chain'_cons'.mpr ⟨?_, buildRows_chain _ _ _ _ _⟩
      intro y hy
      exact buildRows_head_opening p.annual_payment p.rate p.lease_term 1 _ y hy

/-- C4 witness: the invariants instantiated at the advance default
scenario, which exercises the period-0 carve-out. -/
theorem C4_row_consistency_witness :
    InDomain defaultParamsAdvance ∧
    ((∀ row ∈ (compute_lease defaultParamsAdvance).schedule,
      (row.Period ≠ 0 →
        row.Interest = row.Opening * defaultParamsAdvance.rate ∧
          row.Payment = row.Interest + row.Principal ∧
          row.Closing = row.Opening - row.Principal) ∧
      (row.Period = 0 → row.Interest = 0)) ∧
    List.Chain' (fun a b => b.Opening = a.Closing)
      (compute_lease defaultParamsAdvance).schedule) :=
  ⟨defaultParamsAdvance_domain,
    C4_row_consistency defaultParamsAdvance defaultParamsAdvance_domain⟩

/-- C5: the initial ROU asset is liability plus direct costs plus
prepayments minus incentives, the depreciation period count is
`min(term, usefulLife)`, the annual depreciation is the ROU asset divided
by that count, and multiplying back recovers the ROU asset exactly. -/
theorem C5_rou_and_depreciation (p : LeaseParams) (h : InDomain p) :
    (compute_lease p).rou_initial =
      (compute_lease p).lease_liability_initial + p.idc + p.prepaid - p.incentives ∧
    (compute_lease p).dep_years = min p.lease_term p.useful_life ∧
    (compute_lease p).annual_dep =
      (compute_lease p).rou_initial / ((compute_lease p).dep_years : ℚ) ∧
    (compute_lease p).annual_dep * ((compute_lease p).dep_years : ℚ) =
      (compute_lease p).rou_initial := by
  refine ⟨rfl, rfl, rfl, ?_⟩
  have ht : 1 ≤ p.lease_term := h.1
  have hl : 1 ≤ p.useful_life := h.2.2.2.1
  have hmin : min p.lease_term p.useful_life ≠ 0 := by omega
  have hd : ((compute_lease p).dep_years : ℚ) ≠ 0 := by
    show ((min p.lease_term p.useful_life : ℕ) : ℚ) ≠ 0
    exact Nat.cast_ne_zero.mpr hmin
  exact div_mul_cancel₀ _ hd

/-- C5 witness: instantiated at the default scenario. -/
theorem C5_rou_and_depreciation_witness :
    InDomain defaultParams ∧
    ((compute_lease defaultParams).rou_initial =
      (compute_lease defaultParams).lease_liability_initial + defaultParams.idc +
        defaultParams.prepaid - defaultParams.incentives ∧
    (compute_lease defaultParams).dep_years =
      min defaultParams.lease_term defaultParams.useful_life ∧
    (compute_lease defaultParams).annual_dep =
      (compute_lease defaultParams).rou_initial /
        ((compute_lease defaultParams).dep_years : ℚ) ∧
    (compute_lease defaultParams).annual_dep * ((compute_lease defaultParams).dep_years : ℚ) =
      (compute_lease defaultParams).rou_initial) :=
  ⟨defaultParams_domain, C5_rou_and_depreciation defaultParams defaultParams_domain⟩

/-- C7: the schedule has `term` rows in arrears and `term + 1` rows in
advance, and its period numbers run consecutively from 1 (arrears) or
from 0 (advance). -/
theorem C7_schedule_shape (p : LeaseParams) (h : InDomain p) :
    (compute_lease p).schedule.length =
      (if p.pay_in_advance then p.lease_term + 1 else p.lease_term) ∧
    (compute_lease p).schedule.map Row.Period =
      (if p.pay_in_advance then List.range' 0 (p.lease_term + 1)
        else List.range' 1 p.lease_term) := by
  cases hb : p.pay_in_advance
  · rw [compute_lease_schedule_arrears p hb]
    simp [buildRows_length, buildRows_map_Period]
  · rw [compute_lease_schedule_advance p hb]
    simp [buildRows_length, buildRows_map_Period, List.range'_succ]

/-- C7 witness: instantiated at the advance default scenario (5 rows,
periods 0 through 4). -/
theorem C7_schedule_shape_witness :
    InDomain defaultParamsAdvance ∧
    ((compute_lease defaultParamsAdvance).schedule.length =
      (if defaultParamsAdvance.pay_in_advance then defaultParamsAdvance.lease_term + 1
        else defaultParamsAdvance.lease_term) ∧
    (compute_lease defaultParamsAdvance).schedule.map Row.Period =
      (if defaultParamsAdvance.pay_in_advance then
        List.range' 0 (defaultParamsAdvance.lease_term + 1)
        else List.range' 1 defaultParamsAdvance.lease_term)) :=
  ⟨defaultParamsAdvance_domain, C7_schedule_shape defaultParamsAdvance defaultParamsAdvance_domain⟩

/-- C10: with advance timing on the documented domain, the period-0
opening `payment + PV(payment, rate, term − 1)` is at least the payment
(the present value being nonnegative), so the clamp
`min(payment, opening)` resolves to the payment: the period-0 row has
principal reduction exactly the payment and satisfies
`payment = interest + principalReduction` with zero interest. -/
theorem C10_advance_period0 (p : LeaseParams) (h : InDomain p)
    (hb : p.pay_in_advance = true) :
    ∃ row rest, (compute_lease p).schedule = row :: rest ∧ row.Period = 0 ∧
      row.Interest = 0 ∧
      row.Opening = p.annual_payment +
        pv_ordinary_annuity p.annual_payment p.rate (p.lease_term - 1) ∧
      p.annual_payment ≤ row.Opening ∧ row.Principal = p.annual_payment ∧
      row.Payment = p.annual_payment ∧ row.Payment = row.Interest + row.Principal := by
  have hpv : 0 ≤ pv_ordinary_annuity p.annual_payment p.rate (p.lease_term - 1) :=
    pv_nonneg _ _ h.2.1 h.2.2.1 _
  have hmin : min p.annual_payment (p.annual_payment +
      pv_ordinary_annuity p.annual_payment p.rate (p.lease_term - 1)) = p.annual_payment :=
    min_eq_left (by linarith)
  rw [compute_lease_schedule_advance p hb, hmin]
  exact ⟨_, _, rfl, rfl, rfl, rfl, by simpa using hpv, rfl, rfl, (zero_add _).symm⟩

/-- C10 witness: the advance default scenario, whose period-0 row reduces
the liability by exactly the 25000 payment. -/
theorem C10_advance_period0_witness :
    InDomain defaultParamsAdvance ∧ defaultParamsAdvance.pay_in_advance = true ∧
    ∃ row rest, (compute_lease defaultParamsAdvance).schedule = row :: rest ∧
      row.Period = 0 ∧ row.Interest = 0 ∧
      row.Opening = defaultParamsAdvance.annual_payment +
        pv_ordinary_annuity defaultParamsAdvance.annual_payment defaultParamsAdvance.rate
          (defaultParamsAdvance.lease_term - 1) ∧
      defaultParamsAdvance.annual_payment ≤ row.Opening ∧
      row.Principal = defaultParamsAdvance.annual_payment ∧
      row.Payment = defaultParamsAdvance.annual_payment ∧
      row.Payment = row.Interest + row.Principal :=
  ⟨defaultParamsAdvance_domain, rfl,
    C10_advance_period0 defaultParamsAdvance defaultParamsAdvance_domain rfl⟩

/-- C6 counterexample: in the default scenario the initial liability is
exactly `17240500000/194481 ≈ 88648.76`, which differs from the claimed
`≈ 88,664.90` by more than 16 — far outside any two-decimal reading of
`≈`, so the claim's figures are false for the code. -/
theorem C6_counterexample :
    (compute_lease defaultParams).lease_liability_initial = 17240500000 / 194481 ∧
    (compute_lease defaultParams).lease_liability_initial < 886649 / 10 - 16 := by
  constructor <;> norm_num [compute_lease, defaultParams, pv_ordinary_annuity]

/-- C6 amended: the default scenario actually returns
`initialLiability = initialROUAsset ≈ 88,648.76`,
`annualDepreciation ≈ 22,162.19`, a 4-row schedule whose row 1 has
`interest ≈ 4,432.44`, `principalReduction ≈ 20,567.56` and
`closing ≈ 68,081.20`, and whose row 4 has `closing = 0` exactly; the
exact rational outputs are stated in full together with two-decimal
bounds for each approximate figure. -/
theorem C6_default_scenario :
    compute_lease defaultParams =
      ⟨17240500000 / 194481, 17240500000 / 194481, 4310125000 / 194481, 4,
        [⟨1, 17240500000 / 194481, 862025000 / 194481, 25000, 4000000000 / 194481,
            630500000 / 9261⟩,
         ⟨2, 630500000 / 9261, 31525000 / 9261, 25000, 200000000 / 9261, 20500000 / 441⟩,
         ⟨3, 20500000 / 441, 1025000 / 441, 25000, 10000000 / 441, 500000 / 21⟩,
         ⟨4, 500000 / 21, 25000 / 21, 25000, 500000 / 21, 0⟩]⟩ ∧
    (8864876 / 100 : ℚ) < 17240500000 / 194481 ∧
    (17240500000 / 194481 : ℚ) < 8864877 / 100 ∧
    (2216219 / 100 : ℚ) < 4310125000 / 194481 ∧
    (4310125000 / 194481 : ℚ) < 2216220 / 100 ∧
    (443243 / 100 : ℚ) < 862025000 / 194481 ∧
    (862025000 / 194481 : ℚ) < 443244 / 100 ∧
    (2056756 / 100 : ℚ) < 4000000000 / 194481 ∧
    (4000000000 / 194481 : ℚ) < 2056757 / 100 ∧
    (6808120 / 100 : ℚ) < 630500000 / 9261 ∧
    (630500000 / 9261 : ℚ) < 6808121 / 100 := by
  norm_num [compute_lease, defaultParams, pv_ordinary_annuity, buildRows]

/-- C8: for an arrears schedule with a positive rate, when the payment is
less than the initial liability's first-period interest-plus-principal
split (the interest the first period charges on the initial liability plus
the liability itself as principal — i.e. the payment does not extinguish
the whole liability at once), the opening balances strictly decrease row
over row, stay positive, and the final row closes at exactly 0. -/
theorem C8_monotonic_opening (p : LeaseParams) (h : InDomain p)
    (hb : p.pay_in_advance = false) (hr : 0 < p.rate)
    (hpay : p.annual_payment <
      (compute_lease p).lease_liability_initial * p.rate +
        (compute_lease p).lease_liability_initial) :
    List.Chain' (fun a b => b.Opening < a.Opening) (compute_lease p).schedule ∧
    (∀ row ∈ (compute_lease p).schedule, 0 < row.Opening) ∧
    ∃ init last, (compute_lease p).schedule = init ++ [last] ∧ last.Closing = 0 := by
  have hliab : (compute_lease p).lease_liability_initial =
      pv_ordinary_annuity p.annual_payment p.rate p.lease_term := by
    rw [compute_lease_liability, hb]
    simp
  have hp : 0 < p.annual_payment := by
    rcases eq_or_lt_of_le h.2.1 with hp0 | hp0
    · rw [hliab, ← hp0, pv_zero_payment] at hpay
      norm_num at hpay
    · exact hp0
  rw [compute_lease_schedule_arrears p hb]
  obtain ⟨hchain, hpos⟩ :=
    buildRows_openings_strictAnti p.annual_payment p.rate hp hr p.lease_term 1
  refine ⟨hchain, hpos, ?_⟩
  have ht : 1 ≤ p.lease_term := h.1
  obtain ⟨m, hm⟩ : ∃ m, p.lease_term = m + 1 := ⟨p.lease_term - 1, by omega⟩
  rw [hm]
  obtain ⟨init, last, heq, _, _, h3⟩ :=
    buildRows_last p.annual_payment p.rate m 1
      (pv_ordinary_annuity p.annual_payment p.rate (m + 1))
  exact ⟨init, last, heq, h3⟩

/-- C8 witness: the default arrears scenario, whose payment 25000 is well
below the ≈93081 first-period split of the initial liability. -/
theorem C8_monotonic_opening_witness :
    InDomain defaultParams ∧ defaultParams.pay_in_advance = false ∧
    0 < defaultParams.rate ∧
    defaultParams.annual_payment <
      (compute_lease defaultParams).lease_liability_initial * defaultParams.rate +
        (compute_lease defaultParams).lease_liability_initial ∧
    (List.Chain' (fun a b => b.Opening < a.Opening) (compute_lease defaultParams).schedule ∧
    (∀ row ∈ (compute_lease defaultParams).schedule, 0 < row.Opening) ∧
    ∃ init last, (compute_lease defaultParams).schedule = init ++ [last] ∧
      last.Closing = 0) :=
  ⟨defaultParams_domain, rfl, by norm_num [defaultParams],
    by norm_num [compute_lease, defaultParams, pv_ordinary_annuity],
    C8_monotonic_opening defaultParams defaultParams_domain rfl
      (by norm_num [defaultParams])
      (by norm_num [compute_lease, defaultParams, pv_ordinary_annuity])⟩

/-- C9: over the documented domain the calculator is total — the checked
variant, in which every partial Python operation (the negative power at
base 0 and the two divisions) is instrumented to detect an error, raises
none and returns exactly the values of the total embedding: the division
by `rate` is guarded by the `rate = 0` branch, and the depreciation
divisor `min(term, usefulLife)` is at least 1. -/
theorem C9_totality (p : LeaseParams) (h : InDomain p) :
    compute_lease_checked p = some (compute_lease p) := by
  obtain ⟨ht, hp, hr, hl, -⟩ := h
  have hmin : min p.lease_term p.useful_life ≠ 0 := by omega
  have hd : ((min p.lease_term p.useful_life : ℕ) : ℚ) ≠ 0 := Nat.cast_ne_zero.mpr hmin
  have hd2 : ¬ min (p.lease_term : ℚ) (p.useful_life : ℚ) = 0 := by
    rw [← Nat.cast_min]
    exact hd
  cases hb : p.pay_in_advance <;>
    simp [compute_lease_checked, compute_lease, hb, pv_checked_eq _ _ hr, checkedDiv, hd, hd2]

/-- C9 witness: instantiated at the default scenario. -/
theorem C9_totality_witness :
    InDomain defaultParams ∧
    compute_lease_checked defaultParams = some (compute_lease defaultParams) :=
  ⟨defaultParams_domain, C9_totality defaultParams defaultParams_domain⟩

end LeaseApp
